import Mathlib

/-!
Shallow embedding of the rapidllm request-assembly and response-normalization
pipeline and its verification.

Embedded source files:
* `src/rapidllm/rapidlogger.py` — logging-level validation (`validate_level`)
  and the dual-sink logger factory (`RapidLogger`).
* `src/rapidllm/llm_client.py` — the transcription adapter (`transcribe_audio`)
  and the completion orchestrator (`RapidClient.generate_chat_response`).

Modelling conventions:
* Python strings are Lean `String`s; `str.strip()` is modelled by `pyStrip`
  (ASCII whitespace, which covers every input appearing in the pipeline).
* Python optional strings (`Optional[str]`) are `Option String`; Python
  truthiness of such a value (`if x:`) is `strTruthy`.
* The filesystem is a predicate `String → Bool` saying which paths exist.
* The OpenAI chat-completion client is an opaque capability
  `complete : String → List ChatMessage → Except String Completion`; a raised
  exception is the `Except.error` case, and a malformed success (no choices,
  `content = None`) is representable in `Completion` itself.
* Logger calls (`app_logger.error` etc.) are returned as a list of
  `(LogLevel, message)` events where a claim observes them.
* The orchestrator returns `String × Nat`: the Python return value paired with
  the number of completion-capability invocations performed (instrumentation
  for the "no network call" properties; it is 0 on the early-return path and
  1 on every path that enters the `try` block).
-/

namespace RapidLLM

/-- Python ASCII whitespace, as stripped by `str.strip()`. -/
def pyIsSpace (c : Char) : Bool :=
  c = ' ' || c = '\t' || c = '\n' || c = '\r' || c = '\x0b' || c = '\x0c'

/-- Strip leading and trailing whitespace from a character list. -/
def stripList (l : List Char) : List Char :=
  ((l.dropWhile pyIsSpace).reverse.dropWhile pyIsSpace).reverse

/-- Python `str.strip()`: remove leading and trailing whitespace. -/
def pyStrip (s : String) : String :=
  String.mk (stripList s.data)

/-- Python truthiness of an `Optional[str]` value: `None` and `""` are falsy. -/
def strTruthy : Option String → Bool
  | Option.none => false
  | Option.some s => !(s == "")

/-- Python `str.upper()` (character-wise uppercasing; identical to the
Python behavior on the ASCII level names handled here). -/
def pyUpper (s : String) : String :=
  String.mk (s.data.map Char.toUpper)

/-- Python f-string rendering of an `Optional[str]`: `None` renders as the
four-character text "None". -/
def pyStrOfOpt : Option String → String
  | Option.none => "None"
  | Option.some s => s

/-! ### rapidlogger.py -/

/-- The `LoggingLevelStr` literal: the accepted severity names, in source
order (`LoggingLevelStr.__args__`). -/
def valid_levels : List String :=
  ["CRITICAL", "ERROR", "WARNING", "INFO", "DEBUG", "NOTSET"]

/-- A dynamically-typed Python value, as far as the level validator can
observe it (`validate_level` takes `v: Any`). -/
inductive PyVal where
  | str (s : String)
  | int (n : Int)
  | bool (b : Bool)
  | pynone
deriving DecidableEq, Repr

/-- Python `isinstance(v, str)`. -/
def PyVal.isStr : PyVal → Bool
  | .str _ => true
  | _ => false

/-- The two rejection outcomes of level-field validation: the `ValueError`
raised by `validate_level` for an unrecognized string (carrying the offending
value and the accepted names), and the type error produced for a non-string
input. -/
inductive LevelError where
  | invalidLevelName (value : String) (accepted : List String)
  | invalidLevelType (value : PyVal)
deriving DecidableEq, Repr

/-- The `mode='before'` field validator `RapidLoggerConfig.validate_level`:
uppercases string input, accepts it when the uppercase form is one of
`valid_levels`, raises `ValueError` (here `invalidLevelName`) otherwise, and
returns any non-string value unchanged for Pydantic's own coercion to reject. -/
def validate_level (v : PyVal) : Except LevelError PyVal :=
  match v with
  | PyVal.str s =>
    let upper_v := pyUpper s
    if upper_v ∈ valid_levels then
      Except.ok (PyVal.str upper_v)
    else
      Except.error (LevelError.invalidLevelName s valid_levels)
  | other => Except.ok other

/-- Modelled from the spec: the Pydantic coercion of the before-validator's
output to the `LoggingLevelStr` literal type, which is library behavior not in
`src/`. Per the source comments ("Pydantic will attempt to coerce it into the
Literal type next, which will fail") and the spec ("Non-string inputs are
rejected with a distinct InvalidLevelType error"), a non-string value is
rejected with a type error distinct from the validator's name error. -/
def coerce_to_level_literal : PyVal → Except LevelError String
  | PyVal.str s =>
    if s ∈ valid_levels then Except.ok s
    else Except.error (LevelError.invalidLevelName s valid_levels)
  | v => Except.error (LevelError.invalidLevelType v)

/-- The complete validation pipeline a level field goes through: the
before-validator, then Pydantic's literal coercion. -/
def validate_level_field (v : PyVal) : Except LevelError String :=
  (validate_level v).bind coerce_to_level_literal

/-- A validated `RapidLoggerConfig`: name plus the two canonical level names. -/
structure RapidLoggerConfig where
  name : String
  console_level : String
  file_level : String
deriving DecidableEq, Repr

/-- An output sink of a handler: the console stream, or a file at a path. -/
inductive Sink where
  | console
  | file (path : String)
deriving DecidableEq, Repr

/-- Whether a sink is the console stream. -/
def Sink.isConsole : Sink → Bool
  | .console => true
  | .file _ => false

/-- Whether a sink is a file stream. -/
def Sink.isFile : Sink → Bool
  | .console => false
  | .file _ => true

/-- A logging handler: its sink and its severity threshold. -/
structure Handler where
  sink : Sink
  level : String
deriving DecidableEq, Repr

/-- A logger object: its own level (an int; `logging.DEBUG` is 10) and its
attached handlers. A fresh logger has level `NOTSET` (0) and no handlers. -/
structure Logger where
  level : Nat
  handlers : List Handler
deriving DecidableEq, Repr

/-- The process-wide `logging` registry, keyed by logger name. -/
def LoggingState := String → Option Logger

/-- The registry before any logger has been created. -/
def emptyLoggingState : LoggingState := fun _ => Option.none

/-- Python `logging.getLogger(name)`: return the registered logger for
`name`, creating and registering a fresh one on first use. -/
def getLogger (st : LoggingState) (name : String) : Logger × LoggingState :=
  match st name with
  | Option.some lg => (lg, st)
  | Option.none =>
    let lg : Logger := { level := 0, handlers := [] }
    (lg, fun n => if n = name then Option.some lg else st n)

/-- The `RapidLogger` factory of `src/rapidllm/rapidlogger.py`: fetch (or
create) the logger named `config.name`, set its level to DEBUG (10), and — only
when it has no handlers yet — attach one console handler at
`config.console_level` and one file handler at `logs/<name>.log` with
`config.file_level`. Returns the handle identity (the registry key, since
`logging.getLogger` always returns the object registered under that name)
together with the updated registry. -/
def RapidLogger (config : RapidLoggerConfig) (st : LoggingState) :
    String × LoggingState :=
  let p := getLogger st config.name
  let logger₀ := p.1
  let st₁ := p.2
  let logger₁ : Logger := { logger₀ with level := 10 }
  let logger₂ : Logger :=
    if logger₁.handlers.isEmpty then
      { logger₁ with handlers :=
          [ { sink := Sink.console, level := config.console_level },
            { sink := Sink.file ("logs/" ++ config.name ++ ".log"),
              level := config.file_level } ] }
    else logger₁
  (config.name, fun n => if n = config.name then Option.some logger₂ else st₁ n)

/-- Call the `RapidLogger` factory `n` times with the same config, collecting
the returned handle identities and threading the registry. -/
def rapidLoggerRuns (config : RapidLoggerConfig) :
    Nat → LoggingState → List String × LoggingState
  | 0, st => ([], st)
  | n + 1, st =>
    let p := RapidLogger config st
    let q := rapidLoggerRuns config n p.2
    (p.1 :: q.1, q.2)

/-! ### llm_client.py -/

/-- `RapidClientSettings`: validated client configuration. -/
structure RapidClientSettings where
  base_url : String
  api_key : String
  default_model : String
deriving DecidableEq, Repr

/-- The `RapidClientSettings` defaults: `base_url` from the `BASE_URL`
environment variable (here an `Option String`) falling back to the sentinel
"http://broken"; fixed `api_key` and `default_model`. -/
def defaultSettings (env_base_url : Option String) : RapidClientSettings :=
  { base_url := env_base_url.getD "http://broken"
    api_key := "anything"
    default_model := "ai/gemma3n" }

/-- The default system prompt of `generate_chat_response`. -/
def default_prompt : String :=
  "Helpful AI. Give me a bare string no added newlines"

/-- Severity of a logger call made by the client code. -/
inductive LogLevel where
  | debug
  | info
  | warning
  | error
deriving DecidableEq, Repr

/-- Whether a path string is absolute (begins with the separator '/'). -/
def isAbsolutePath (p : String) : Bool :=
  match p.data with
  | [] => false
  | c :: _ => c = '/'

/-- Python `os.path.join("audio", p)`: `p` itself when absolute, otherwise
"audio/" followed by `p`. -/
def os_path_join_audio (p : String) : String :=
  if isAbsolutePath p then p else "audio/" ++ p

/-- `RapidClient.transcribe_audio`: resolve the path under the `audio`
directory; if the file does not exist, log at error severity and return
`None`; otherwise log at info severity and return the (stubbed) transcription
text. The second component is the list of logger calls performed. -/
def transcribe_audio (path_exists : String → Bool) (audio_path : String) :
    Option String × List (LogLevel × String) :=
  let full_audio_path := os_path_join_audio audio_path
  if !(path_exists full_audio_path) then
    (Option.none,
     [(LogLevel.error, "Audio file not found at path: " ++ full_audio_path)])
  else
    (Option.some "tell me a joke", [(LogLevel.info, "found an audio file")])

/-- A chat message sent to the completion API. -/
structure ChatMessage where
  role : String
  content : String
deriving DecidableEq, Repr

/-- The `message` object inside a returned choice; `content` may be `None`. -/
structure ChoiceMessage where
  content : Option String
deriving DecidableEq, Repr

/-- One choice of a completion response. -/
structure Choice where
  message : ChoiceMessage
deriving DecidableEq, Repr

/-- A (possibly malformed) completion response: its list of choices. -/
structure Completion where
  choices : List Choice
deriving DecidableEq, Repr

/-- Whether a completion-capability outcome is a failure as
`generate_chat_response` experiences it: a raised exception (`Except.error`),
an empty `choices` list (`IndexError` inside the `try`), or a `None` content
(`AttributeError` on `.strip()` inside the `try`). -/
def completionFailed : Except String Completion → Bool
  | Except.error _ => true
  | Except.ok r =>
    match r.choices.head? with
    | Option.none => true
    | Option.some c => c.message.content.isNone

/-- Lines 98–113 of `generate_chat_response`: the effective user message.
Starting from `message`, if `audio_path` is truthy, attempt transcription; if
that yields truthy text, replace the message with
`f"{message}\n\n**Transcribed Audio:** {text}".strip()`; otherwise (or when
`audio_path` is falsy) keep `message` unchanged. -/
def final_user_message (path_exists : String → Bool) (message : Option String)
    (audio_path : Option String) : Option String :=
  if strTruthy audio_path then
    let transcribed_text := (transcribe_audio path_exists (audio_path.getD "")).1
    if strTruthy transcribed_text then
      Option.some (pyStrip (pyStrOfOpt message ++ "\n\n**Transcribed Audio:** "
        ++ transcribed_text.getD ""))
    else message
  else message

/-- `RapidClient.generate_chat_response`: assemble the effective user message;
if it is falsy, return the fixed explanatory string without touching the
network; otherwise build the `[system, user]` message pair, invoke the
completion capability, and return the stripped content of the first choice on
success, or the fixed error string embedding `settings.base_url` when the
invocation fails in any way. The second component counts completion-capability
invocations (0 on the early return, 1 once the `try` block runs). -/
def generate_chat_response (settings : RapidClientSettings)
    (complete : String → List ChatMessage → Except String Completion)
    (path_exists : String → Bool) (message : Option String) (prompt : String)
    (audio_path : Option String) : String × Nat :=
  let fum := final_user_message path_exists message audio_path
  if !(strTruthy fum) then
    ("Error: User message or successfully transcribed audio must be provided.",
     0)
  else
    let messages : List ChatMessage :=
      [ { role := "system", content := prompt },
        { role := "user", content := fum.getD "" } ]
    match complete settings.default_model messages with
    | Except.error _ => ("Error connecting to LLM at " ++ settings.base_url, 1)
    | Except.ok response =>
      match response.choices.head? with
      | Option.none => ("Error connecting to LLM at " ++ settings.base_url, 1)
      | Option.some choice =>
        match choice.message.content with
        | Option.none =>
          ("Error connecting to LLM at " ++ settings.base_url, 1)
        | Option.some content => (pyStrip content, 1)

/-- The logger the factory registers under `config.name`: level DEBUG (10),
one console handler and one file handler. -/
def targetLogger (config : RapidLoggerConfig) : Logger :=
  { level := 10
    handlers :=
      [ { sink := Sink.console, level := config.console_level },
        { sink := Sink.file ("logs/" ++ config.name ++ ".log"),
          level := config.file_level } ] }

/-! ### Theorems -/

/-- C5: for every string that is a case variant of one of the six severity
names, `validate_level` returns the same canonical uppercase member,
regardless of the input's casing. -/
theorem validate_level_case_insensitive (s L : String)
    (hL : L ∈ valid_levels) (hs : pyUpper s = L) :
    validate_level (PyVal.str s) = Except.ok (PyVal.str L) := by
  simp [validate_level, hs, hL]

/-- Witness for C5: the three case variants "warning", "Warning", "WARNING"
all validate to the same canonical member "WARNING". -/
theorem validate_level_case_insensitive_witness :
    validate_level (PyVal.str "warning") = Except.ok (PyVal.str "WARNING") ∧
    validate_level (PyVal.str "Warning") = Except.ok (PyVal.str "WARNING") ∧
    validate_level (PyVal.str "WARNING") = Except.ok (PyVal.str "WARNING") :=
  ⟨validate_level_case_insensitive "warning" "WARNING" (by decide) (by decide),
   validate_level_case_insensitive "Warning" "WARNING" (by decide) (by decide),
   validate_level_case_insensitive "WARNING" "WARNING" (by decide) (by decide)⟩

/-- C7: for every string whose uppercase form is not in the severity
enumeration (case-insensitive non-membership), `validate_level` fails with
`invalidLevelName` carrying the offending value and the accepted names. -/
theorem validate_level_unknown_name (s : String)
    (h : pyUpper s ∉ valid_levels) :
    validate_level (PyVal.str s)
      = Except.error (LevelError.invalidLevelName s valid_levels) := by
  simp [validate_level, h]

/-- Witness for C7: "VERBOSE" is rejected with `invalidLevelName` carrying
the value and the accepted names. -/
theorem validate_level_unknown_name_witness :
    validate_level (PyVal.str "VERBOSE")
      = Except.error (LevelError.invalidLevelName "VERBOSE" valid_levels) :=
  validate_level_unknown_name "VERBOSE" (by decide)

/-- C9: every non-string input is rejected by the level-field validation
pipeline with `invalidLevelType`, an error distinct (as a value, for every
possible payload) from the `invalidLevelName` error raised for unrecognized
strings. -/
theorem validate_level_field_non_string (v : PyVal) (h : v.isStr = false) :
    validate_level_field v = Except.error (LevelError.invalidLevelType v) ∧
    ∀ s accepted,
      LevelError.invalidLevelType v ≠ LevelError.invalidLevelName s accepted := by
  refine ⟨?_, fun s accepted hcontra => LevelError.noConfusion hcontra⟩
  cases v with
  | str s => simp [PyVal.isStr] at h
  | int n => rfl
  | bool b => rfl
  | pynone => rfl

/-- Witness for C9: the integer 20 is rejected with the type error. -/
theorem validate_level_field_non_string_witness :
    validate_level_field (PyVal.int 20)
      = Except.error (LevelError.invalidLevelType (PyVal.int 20)) :=
  (validate_level_field_non_string (PyVal.int 20) (by decide)).1

theorem RapidLogger_fresh (config : RapidLoggerConfig) (st : LoggingState)
    (h : st config.name = Option.none) :
    (RapidLogger config st).2 config.name
      = Option.some (targetLogger config) := by
  simp [RapidLogger, getLogger, h, targetLogger]

theorem RapidLogger_stable (config : RapidLoggerConfig) (st : LoggingState)
    (h : st config.name = Option.some (targetLogger config)) :
    (RapidLogger config st).2 config.name
      = Option.some (targetLogger config) := by
  simp [RapidLogger, getLogger, h, targetLogger]

theorem rapidLoggerRuns_stable (config : RapidLoggerConfig) (n : Nat) :
    ∀ st : LoggingState,
      st config.name = Option.some (targetLogger config) →
      (rapidLoggerRuns config n st).2 config.name
          = Option.some (targetLogger config) ∧
        ∀ i ∈ (rapidLoggerRuns config n st).1, i = config.name := by
  induction n with
  | zero =>
    intro st h
    exact ⟨h, by simp [rapidLoggerRuns]⟩
  | succ m ih =>
    intro st h
    have hstep := RapidLogger_stable config st h
    have hrec := ih ((RapidLogger config st).2) hstep
    refine ⟨hrec.1, ?_⟩
    intro i hi
    simp [rapidLoggerRuns] at hi
    rcases hi with hi | hi
    · rw [hi]; rfl
    · exact hrec.2 i hi

/-- C6: calling the `RapidLogger` factory N ≥ 1 times with the same config,
starting from the empty registry, returns the same logger identity
(`config.name`) from every call, and the registered logger ends with exactly
one console sink and one file sink in total — never N of each. -/
theorem RapidLogger_idempotent (config : RapidLoggerConfig) (N : Nat)
    (hN : 1 ≤ N) :
    (∀ i ∈ (rapidLoggerRuns config N emptyLoggingState).1, i = config.name) ∧
    ∃ lg, (rapidLoggerRuns config N emptyLoggingState).2 config.name
        = Option.some lg ∧
      (lg.handlers.filter (fun h => h.sink.isConsole)).length = 1 ∧
      (lg.handlers.filter (fun h => h.sink.isFile)).length = 1 := by
  obtain ⟨m, rfl⟩ : ∃ m, N = m + 1 := ⟨N - 1, by omega⟩
  have hfresh := RapidLogger_fresh config emptyLoggingState rfl
  have hrec := rapidLoggerRuns_stable config m
    ((RapidLogger config emptyLoggingState).2) hfresh
  constructor
  · intro i hi
    simp [rapidLoggerRuns] at hi
    rcases hi with hi | hi
    · rw [hi]; rfl
    · exact hrec.2 i hi
  · refine ⟨targetLogger config, ?_, ?_, ?_⟩
    · simpa [rapidLoggerRuns] using hrec.1
    · simp [targetLogger, Sink.isConsole, Sink.isFile]
    · simp [targetLogger, Sink.isConsole, Sink.isFile]

/-- Witness for C6: three calls with the config named "LLM" all return the
identity "LLM" and leave exactly one console sink and one file sink. -/
theorem RapidLogger_idempotent_witness :
    (∀ i ∈ (rapidLoggerRuns (RapidLoggerConfig.mk "LLM" "WARNING" "DEBUG") 3
        emptyLoggingState).1, i = "LLM") ∧
    ∃ lg, (rapidLoggerRuns (RapidLoggerConfig.mk "LLM" "WARNING" "DEBUG") 3
        emptyLoggingState).2 "LLM" = Option.some lg ∧
      (lg.handlers.filter (fun h => h.sink.isConsole)).length = 1 ∧
      (lg.handlers.filter (fun h => h.sink.isFile)).length = 1 :=
  RapidLogger_idempotent (RapidLoggerConfig.mk "LLM" "WARNING" "DEBUG") 3
    (by decide)

theorem dropWhile_append_cons {α} (p : α → Bool) (a : List α) (c : α)
    (d : List α) (hc : p c = false) :
    (a ++ c :: d).dropWhile p = a.dropWhile p ++ c :: d := by
  rw [List.dropWhile_append]
  by_cases h : (a.dropWhile p).isEmpty
  · rw [if_pos h, List.dropWhile_cons, if_neg (by simp [hc]),
      List.isEmpty_iff.mp h]
    simp
  · rw [if_neg h]

/-- Stripping a list that starts with a non-whitespace character and whose
interesting part ends with a non-whitespace character only removes characters
from the appended remainder. -/
theorem stripList_keeps_lead (c d : Char) (m r : List Char)
    (hc : pyIsSpace c = false) (hd : pyIsSpace d = false) :
    stripList (c :: (m ++ [d]) ++ r)
      = (c :: (m ++ [d])) ++ (r.reverse.dropWhile pyIsSpace).reverse := by
  unfold stripList
  rw [List.cons_append, List.dropWhile_cons, if_neg (by simp [hc])]
  rw [List.reverse_cons, List.reverse_append, List.reverse_append]
  simp only [List.reverse_singleton, List.singleton_append, List.append_assoc,
    List.cons_append]
  rw [dropWhile_append_cons _ _ _ _ hd]
  simp [List.reverse_append]

theorem final_user_message_no_audio (pe : String → Bool) (m : Option String) :
    final_user_message pe m Option.none = m := rfl

theorem final_user_message_transcribed (pe : String → Bool) (m : Option String)
    (ap t : String) (hap : ap ≠ "")
    (htr : (transcribe_audio pe ap).1 = Option.some t) (ht : t ≠ "") :
    final_user_message pe m (Option.some ap)
      = Option.some
          (pyStrip (pyStrOfOpt m ++ "\n\n**Transcribed Audio:** " ++ t)) := by
  have h1 : strTruthy (Option.some ap) = true := by simp [strTruthy, hap]
  have h2 : strTruthy (Option.some t) = true := by simp [strTruthy, ht]
  simp [final_user_message, h1, htr, h2]

theorem final_user_message_no_transcript (pe : String → Bool)
    (m : Option String) (ap : String) (hap : ap ≠ "")
    (htr : strTruthy (transcribe_audio pe ap).1 = false) :
    final_user_message pe m (Option.some ap) = m := by
  have h1 : strTruthy (Option.some ap) = true := by simp [strTruthy, hap]
  simp [final_user_message, h1, htr]

/-- Evaluation of the orchestrator once the effective message is truthy: it
invokes the completion capability on the `[system, user]` pair and
post-processes the outcome exactly as the `try` block does. -/
theorem generate_chat_response_eval (settings : RapidClientSettings)
    (complete : String → List ChatMessage → Except String Completion)
    (path_exists : String → Bool) (message : Option String) (prompt : String)
    (audio_path : Option String)
    (hne : strTruthy (final_user_message path_exists message audio_path)
      = true) :
    generate_chat_response settings complete path_exists message prompt
        audio_path
      = match complete settings.default_model
          [ { role := "system", content := prompt },
            { role := "user", content :=
                (final_user_message path_exists message audio_path).getD "" } ]
          with
        | Except.error _ =>
          ("Error connecting to LLM at " ++ settings.base_url, 1)
        | Except.ok response =>
          match response.choices.head? with
          | Option.none =>
            ("Error connecting to LLM at " ++ settings.base_url, 1)
          | Option.some choice =>
            match choice.message.content with
            | Option.none =>
              ("Error connecting to LLM at " ++ settings.base_url, 1)
            | Option.some content => (pyStrip content, 1) := by
  simp only [generate_chat_response]
  rw [hne]
  rfl

/-- C1: for every request whose effective message is non-empty, when the
completion capability fails in every way it can (raised exception, no choices,
missing content), `generate_chat_response` returns — rather than throws — the
fixed-format string embedding `settings.base_url` (the base URL is a suffix of
the returned string). -/
theorem generate_chat_response_upstream_failure (settings : RapidClientSettings)
    (complete : String → List ChatMessage → Except String Completion)
    (path_exists : String → Bool) (message : Option String) (prompt : String)
    (audio_path : Option String)
    (hne : strTruthy (final_user_message path_exists message audio_path)
      = true)
    (hfail : ∀ model msgs, completionFailed (complete model msgs) = true) :
    (generate_chat_response settings complete path_exists message prompt
        audio_path).1 = "Error connecting to LLM at " ++ settings.base_url ∧
    settings.base_url.data <:+
      (generate_chat_response settings complete path_exists message prompt
        audio_path).1.data := by
  have hmain : (generate_chat_response settings complete path_exists message
      prompt audio_path).1
      = "Error connecting to LLM at " ++ settings.base_url := by
    rw [generate_chat_response_eval settings complete path_exists message
      prompt audio_path hne]
    cases hres : complete settings.default_model
        [ { role := "system", content := prompt },
          { role := "user", content :=
              (final_user_message path_exists message audio_path).getD "" } ]
        with
    | error e => rfl
    | ok r =>
      have h := hfail settings.default_model
        [ { role := "system", content := prompt },
          { role := "user", content :=
              (final_user_message path_exists message audio_path).getD "" } ]
      rw [hres] at h
      simp only [completionFailed] at h
      cases hh : r.choices.head? with
      | none => simp [hh]
      | some c =>
        simp only [hh] at h
        cases hcc : c.message.content with
        | none => simp [hh, hcc]
        | some s => simp [hcc] at h
  refine ⟨hmain, ?_⟩
  rw [hmain, String.data_append]
  exact ⟨"Error connecting to LLM at ".data, rfl⟩

/-- Witness for C1: with a non-empty message, no audio, and a capability that
always raises, the orchestrator returns the error string naming the default
base URL. -/
theorem generate_chat_response_upstream_failure_witness :
    (generate_chat_response (defaultSettings Option.none)
        (fun _ _ => Except.error "connection refused") (fun _ => false)
        (Option.some "hi") default_prompt Option.none).1
      = "Error connecting to LLM at " ++ (defaultSettings Option.none).base_url
    :=
  (generate_chat_response_upstream_failure (defaultSettings Option.none)
    (fun _ _ => Except.error "connection refused") (fun _ => false)
    (Option.some "hi") default_prompt Option.none (by decide)
    (fun _ _ => rfl)).1

/-- C2: when the message is empty or absent and no transcript text was
obtained, the orchestrator returns the fixed explanatory string (which is not
the empty string) and performs zero completion-capability invocations. -/
theorem generate_chat_response_empty_input (settings : RapidClientSettings)
    (complete : String → List ChatMessage → Except String Completion)
    (path_exists : String → Bool) (message : Option String) (prompt : String)
    (audio_path : Option String)
    (hmsg : message = Option.none ∨ message = Option.some "")
    (htr : strTruthy audio_path = false ∨
      strTruthy (transcribe_audio path_exists (audio_path.getD "")).1
        = false) :
    generate_chat_response settings complete path_exists message prompt
        audio_path
      = ("Error: User message or successfully transcribed audio must be provided.",
         0) ∧
    (generate_chat_response settings complete path_exists message prompt
        audio_path).1 ≠ "" := by
  have hfum : final_user_message path_exists message audio_path = message := by
    rcases htr with h | h
    · simp [final_user_message, h]
    · by_cases ha : strTruthy audio_path
      · simp [final_user_message, ha, h]
      · simp [final_user_message, ha]
  have hfalsy : strTruthy (final_user_message path_exists message audio_path)
      = false := by
    rw [hfum]
    rcases hmsg with h | h <;> rw [h] <;> rfl
  have hmain : generate_chat_response settings complete path_exists message
      prompt audio_path
      = ("Error: User message or successfully transcribed audio must be provided.",
         0) := by
    simp only [generate_chat_response]
    rw [hfalsy]
    rfl
  exact ⟨hmain, by rw [hmain]; decide⟩

/-- Witness for C2: an absent message with no audio reference yields the fixed
explanatory string and zero capability invocations, for a capability that
would succeed if called. -/
theorem generate_chat_response_empty_input_witness :
    generate_chat_response (defaultSettings Option.none)
        (fun _ _ => Except.ok
          (Completion.mk [Choice.mk (ChoiceMessage.mk (Option.some "hello"))]))
        (fun _ => false) Option.none default_prompt Option.none
      = ("Error: User message or successfully transcribed audio must be provided.",
         0) :=
  (generate_chat_response_empty_input (defaultSettings Option.none)
    (fun _ _ => Except.ok
      (Completion.mk [Choice.mk (ChoiceMessage.mk (Option.some "hello"))]))
    (fun _ => false) Option.none default_prompt Option.none
    (Or.inl rfl) (Or.inl rfl)).1

/-- C3: message-assembly rule. When the transcription adapter yields text `t`
(non-empty, as its stub always is), the effective message is the message,
a blank line, and the labeled transcript block containing `t`, trimmed of
surrounding whitespace; when the audio reference is absent, or transcription
is unavailable, the effective message is the message alone. -/
theorem effective_message_assembly (pe : String → Bool) (m ap t : String) :
    ((transcribe_audio pe ap).1 = Option.some t → t ≠ "" → ap ≠ "" →
      final_user_message pe (Option.some m) (Option.some ap)
        = Option.some (pyStrip (m ++ "\n\n**Transcribed Audio:** " ++ t))) ∧
    final_user_message pe (Option.some m) Option.none = Option.some m ∧
    ((transcribe_audio pe ap).1 = Option.none → ap ≠ "" →
      final_user_message pe (Option.some m) (Option.some ap)
        = Option.some m) := by
  refine ⟨fun htr ht hap => ?_,
    final_user_message_no_audio pe (Option.some m), fun htr hap => ?_⟩
  · have h := final_user_message_transcribed pe (Option.some m) ap t hap htr ht
    simpa [pyStrOfOpt] using h
  · exact final_user_message_no_transcript pe (Option.some m) ap hap
      (by rw [htr]; rfl)

/-- Witness for C3: message "hi" with a found audio file assembles to exactly
"hi" + blank line + labeled transcript block, with no surrounding whitespace;
"hi" with no audio reference, or with a missing audio file, stays exactly
"hi". -/
theorem effective_message_assembly_witness :
    final_user_message (fun p => p == "audio/clip.wav") (Option.some "hi")
        (Option.some "clip.wav")
      = Option.some "hi\n\n**Transcribed Audio:** tell me a joke" ∧
    final_user_message (fun p => p == "audio/clip.wav") (Option.some "hi")
        Option.none = Option.some "hi" ∧
    final_user_message (fun _ => false) (Option.some "hi")
        (Option.some "clip.wav") = Option.some "hi" := by
  have h := effective_message_assembly (fun p => p == "audio/clip.wav") "hi"
    "clip.wav" "tell me a joke"
  have h2 := effective_message_assembly (fun _ => false) "hi" "clip.wav"
    "tell me a joke"
  refine ⟨?_, h.2.1, h2.2.2 (by decide) (by decide)⟩
  rw [h.1 (by decide) (by decide) (by decide)]
  decide

/-- C4: on every successful completion invocation (the capability returns a
first choice carrying textual content), `generate_chat_response` returns that
content with leading and trailing whitespace stripped. -/
theorem generate_chat_response_success (settings : RapidClientSettings)
    (complete : String → List ChatMessage → Except String Completion)
    (path_exists : String → Bool) (message : Option String) (prompt : String)
    (audio_path : Option String) (resp : Completion) (choice : Choice)
    (content : String)
    (hne : strTruthy (final_user_message path_exists message audio_path)
      = true)
    (hok : complete settings.default_model
        [ { role := "system", content := prompt },
          { role := "user", content :=
              (final_user_message path_exists message audio_path).getD "" } ]
      = Except.ok resp)
    (hch : resp.choices.head? = Option.some choice)
    (hcc : choice.message.content = Option.some content) :
    (generate_chat_response settings complete path_exists message prompt
        audio_path).1 = pyStrip content := by
  rw [generate_chat_response_eval settings complete path_exists message
    prompt audio_path hne]
  simp [hok, hch, hcc]

/-- Witness for C4: a capability returning content "  a joke  " yields the
trimmed result "a joke". -/
theorem generate_chat_response_success_witness :
    (generate_chat_response (defaultSettings Option.none)
        (fun _ _ => Except.ok (Completion.mk
          [Choice.mk (ChoiceMessage.mk (Option.some "  a joke  "))]))
        (fun _ => false) (Option.some "hi") default_prompt Option.none).1
      = "a joke" := by
  rw [generate_chat_response_success (defaultSettings Option.none)
    (fun _ _ => Except.ok (Completion.mk
      [Choice.mk (ChoiceMessage.mk (Option.some "  a joke  "))]))
    (fun _ => false) (Option.some "hi") default_prompt Option.none
    (Completion.mk [Choice.mk (ChoiceMessage.mk (Option.some "  a joke  "))])
    (Choice.mk (ChoiceMessage.mk (Option.some "  a joke  "))) "  a joke  "
    (by decide) rfl rfl rfl]
  decide

/-- C8: when the audio reference resolves to a non-existent resource, the
transcription adapter returns `None` (the Unavailable outcome) rather than
raising, logs the failure at error severity, the effective message degrades to
the text message alone, and the orchestrator still produces the successful
result when that message is non-empty. -/
theorem transcribe_missing_file (pe : String → Bool) (ap : String)
    (hmiss : pe (os_path_join_audio ap) = false) :
    (transcribe_audio pe ap).1 = Option.none ∧
    (LogLevel.error, "Audio file not found at path: " ++ os_path_join_audio ap)
      ∈ (transcribe_audio pe ap).2 ∧
    (∀ m : String, m ≠ "" → ap ≠ "" →
      final_user_message pe (Option.some m) (Option.some ap)
        = Option.some m) ∧
    ∀ (settings : RapidClientSettings)
      (complete : String → List ChatMessage → Except String Completion)
      (m prompt content : String) (resp : Completion) (choice : Choice),
      m ≠ "" → ap ≠ "" →
      complete settings.default_model
          [ { role := "system", content := prompt },
            { role := "user", content := m } ] = Except.ok resp →
      resp.choices.head? = Option.some choice →
      choice.message.content = Option.some content →
      (generate_chat_response settings complete pe (Option.some m) prompt
          (Option.some ap)).1 = pyStrip content := by
  have htr : (transcribe_audio pe ap).1 = Option.none := by
    simp [transcribe_audio, hmiss]
  have hlog : (LogLevel.error,
      "Audio file not found at path: " ++ os_path_join_audio ap)
      ∈ (transcribe_audio pe ap).2 := by
    simp [transcribe_audio, hmiss]
  have hfum : ∀ m : String, m ≠ "" → ap ≠ "" →
      final_user_message pe (Option.some m) (Option.some ap)
        = Option.some m := fun m _ hap =>
    final_user_message_no_transcript pe (Option.some m) ap hap
      (by rw [htr]; rfl)
  refine ⟨htr, hlog, hfum, ?_⟩
  intro settings complete m prompt content resp choice hm hap hok hch hcc
  have hfm := hfum m hm hap
  have hne : strTruthy (final_user_message pe (Option.some m)
      (Option.some ap)) = true := by simp [hfm, strTruthy, hm]
  rw [generate_chat_response_eval settings complete pe (Option.some m)
    prompt (Option.some ap) hne]
  rw [hfm]
  simp [hok, hch, hcc]

/-- Witness for C8: a missing file "ghost.wav" gives the `None` outcome with
an error-severity log entry, and the orchestrator still answers from the text
message "hi" alone. -/
theorem transcribe_missing_file_witness :
    (transcribe_audio (fun _ => false) "ghost.wav").1 = Option.none ∧
    (LogLevel.error, "Audio file not found at path: audio/ghost.wav")
      ∈ (transcribe_audio (fun _ => false) "ghost.wav").2 ∧
    (generate_chat_response (defaultSettings Option.none)
        (fun _ _ => Except.ok (Completion.mk
          [Choice.mk (ChoiceMessage.mk (Option.some "sure, a joke"))]))
        (fun _ => false) (Option.some "hi") default_prompt
        (Option.some "ghost.wav")).1 = "sure, a joke" := by
  have h := transcribe_missing_file (fun _ => false) "ghost.wav" rfl
  refine ⟨h.1, by decide, ?_⟩
  rw [h.2.2.2 (defaultSettings Option.none)
    (fun _ _ => Except.ok (Completion.mk
      [Choice.mk (ChoiceMessage.mk (Option.some "sure, a joke"))]))
    "hi" default_prompt "sure, a joke"
    (Completion.mk [Choice.mk (ChoiceMessage.mk (Option.some "sure, a joke"))])
    (Choice.mk (ChoiceMessage.mk (Option.some "sure, a joke")))
    (by decide) (by decide) rfl rfl rfl]
  decide

/-- C10: when the message is absent (`None`) and a transcript is obtained, the
effective user message is the f-string rendering — the literal four-character
text "None", a blank line, and the labeled transcript block (the block is
never sent alone): the stripped string always keeps
"None\n\n**Transcribed Audio:**" as a prefix of its characters. -/
theorem none_message_effective_form (pe : String → Bool) (ap t : String)
    (hap : ap ≠ "") (htr : (transcribe_audio pe ap).1 = Option.some t)
    (ht : t ≠ "") :
    final_user_message pe Option.none (Option.some ap)
      = Option.some (pyStrip ("None" ++ "\n\n**Transcribed Audio:** " ++ t)) ∧
    "None\n\n**Transcribed Audio:**".data <+:
      (pyStrip ("None" ++ "\n\n**Transcribed Audio:** " ++ t)).data := by
  constructor
  · have h := final_user_message_transcribed pe Option.none ap t hap htr ht
    simpa [pyStrOfOpt] using h
  · have hdata : ("None" ++ "\n\n**Transcribed Audio:** " ++ t).data
        = 'N' :: ("one\n\n**Transcribed Audio:*".data ++ ['*'])
            ++ (' ' :: t.data) := by
      rw [String.data_append, String.data_append]
      rw [show "None".data ++ "\n\n**Transcribed Audio:** ".data
        = 'N' :: (("one\n\n**Transcribed Audio:*".data ++ ['*']) ++ [' '])
        from by decide]
      simp [List.cons_append, List.append_assoc]
    show _ <+: stripList (("None" ++ "\n\n**Transcribed Audio:** " ++ t).data)
    rw [hdata, stripList_keeps_lead _ _ _ _ (by decide) (by decide)]
    rw [show "None\n\n**Transcribed Audio:**".data
      = 'N' :: ("one\n\n**Transcribed Audio:*".data ++ ['*']) from by decide]
    exact ⟨_, rfl⟩

/-- Witness for C10: an absent message with a found audio file assembles to
"None" + blank line + the transcript block, not to the transcript alone. -/
theorem none_message_effective_form_witness :
    final_user_message (fun p => p == "audio/voice.wav") Option.none
        (Option.some "voice.wav")
      = Option.some "None\n\n**Transcribed Audio:** tell me a joke" ∧
    "None\n\n**Transcribed Audio:**".data <+:
      "None\n\n**Transcribed Audio:** tell me a joke".data := by
  have h := none_message_effective_form (fun p => p == "audio/voice.wav")
    "voice.wav" "tell me a joke" (by decide) (by decide) (by decide)
  refine ⟨?_, by decide⟩
  rw [h.1]
  decide

end RapidLLM
